import Mathlib

/-!
Verification of the three-stage AI research pipeline (research → analysis →
decision → format) against its specification.

The Python sources are shallowly embedded as pure Lean functions.  External
collaborators (the web-search call, the summarization step's LLM, the three
reasoning-LLM clients, and the JSON library's parse function) are modelled as
components of an `Env` record: each LLM/search call is a function from the
prompt string to `Except String String` (an exception carrying the Python
`str(e)` message, or the response's `content`), and `json.loads` is modelled
as `parseJson : String → Option JValue` (`none` standing for
`json.JSONDecodeError`).  The `@traceable` decorators are tracing wrappers
with no behavioural effect and are not modelled.  Where a claim is about the
number of collaborator invocations, the stage function also returns an
explicit call-count trace computed along the executed path.
-/

namespace AIAgent

/-- JSON-like values: the shape of the Python dict/list/str/num data that
flows between the pipeline stages (results of `json.loads`, the hard-coded
fallback literals, and the final report's heterogeneous fields). -/
inductive JValue where
  | null : JValue
  | bool : Bool → JValue
  | num : Int → JValue
  | str : String → JValue
  | arr : List JValue → JValue
  | obj : List (String × JValue) → JValue

/-- Key lookup in the association list of a JSON object (Python dict keys are
unique, so first-match lookup is faithful). -/
def jLookup : List (String × JValue) → String → Option JValue
  | [], _ => none
  | (k, v) :: rest, key => if k = key then some v else jLookup rest key

/-- Python `v.get(key, default)`.  On a dict it returns the stored value, or
the default when the key is absent; on any non-dict value the attribute
access raises `AttributeError` (modelled as `Except.error`). -/
def pyGetD (v : JValue) (key : String) (dflt : JValue) : Except String JValue :=
  match v with
  | .obj kvs => .ok ((jLookup kvs key).getD dflt)
  | _ => .error "AttributeError"

/-- Python iteration `for x in v`: lists yield their elements, strings yield
their one-character substrings, dicts yield their keys; numbers, booleans and
`None` raise `TypeError`. -/
def pyIter : JValue → Except String (List JValue)
  | .arr l => .ok l
  | .str s => .ok (s.toList.map (fun c => .str (String.mk [c])))
  | .obj kvs => .ok (kvs.map (fun kv => .str kv.1))
  | _ => .error "TypeError"

/-- Python truthiness of a JSON value (`if analysis_data:` etc.). -/
def pyTruthy : JValue → Bool
  | .null => false
  | .bool b => b
  | .num n => n != 0
  | .str s => s ≠ ""
  | .arr l => !l.isEmpty
  | .obj kvs => !kvs.isEmpty

mutual

/-- `json.dumps` on a `JValue` (the `indent=2` pretty-printing of the source
is not modelled: the produced string is only ever consumed by the abstract
`parseJson` collaborator, never inspected). -/
def dumps : JValue → String
  | .null => "null"
  | .bool true => "true"
  | .bool false => "false"
  | .num n => toString n
  | .str s => "\"" ++ s ++ "\""
  | .arr l => "[" ++ dumpsArr l ++ "]"
  | .obj kvs => "\x7b" ++ dumpsObj kvs ++ "\x7d"

/-- Serialize the element list of a JSON array, comma-separated. -/
def dumpsArr : List JValue → String
  | [] => ""
  | [v] => dumps v
  | v :: rest => dumps v ++ ", " ++ dumpsArr rest

/-- Serialize the key/value pairs of a JSON object, comma-separated. -/
def dumpsObj : List (String × JValue) → String
  | [] => ""
  | [(k, v)] => "\"" ++ k ++ "\": " ++ dumps v
  | (k, v) :: rest => "\"" ++ k ++ "\": " ++ dumps v ++ ", " ++ dumpsObj rest

end

/-- Length of the array stored under `key` of a JSON object, when there is
one (used to state how many entries a fallback literal carries). -/
def jArrLen (v : JValue) (key : String) : Option Nat :=
  match v with
  | .obj kvs =>
    match jLookup kvs key with
    | some (.arr l) => some l.length
    | _ => none
  | _ => none

/-- Number of keys of the object stored under `key` of a JSON object, when
there is one. -/
def jObjKeyCount (v : JValue) (key : String) : Option Nat :=
  match v with
  | .obj kvs =>
    match jLookup kvs key with
    | some (.obj inner) => some inner.length
    | _ => none
  | _ => none

/-- Did an `Except`-modelled collaborator call raise? -/
def isErr : Except String String → Bool
  | .error _ => true
  | .ok _ => false

/-- The external collaborators of the pipeline.  Each LLM client maps the
prompt text to either the response content (`.ok`) or the raised exception's
message (`.error`); `search`/`summarize` are the tool `_run` methods as seen
from the research stage (they may raise); `parseJson` is `json.loads`
(`none` = `JSONDecodeError`).  Each agent owns a separate LLM instance, hence
the separate fields. -/
structure Env where
  search : String → Except String String
  summarize : String → Except String String
  researchLLM : String → Except String String
  analysisLLM : String → Except String String
  toolLLM : String → Except String String
  decisionLLM : String → Except String String
  parseJson : String → Option JValue

/-- The dictionary returned by `ResearchAgent.research`.  `none` fields model
keys absent from the returned dict (the error path omits
`raw_search_results`; the success path omits `error`). -/
structure ResearchFinding where
  query : String
  findings : String
  raw_search_results : Option String
  error : Option String
  agent_type : String

/-- The dictionary returned by `AnalysisAgent.analyze`. -/
structure AnalysisResult where
  original_query : String
  analysis : JValue
  error : Option String
  agent_type : String

/-- The dictionary returned by `DecisionAgent.decide`. -/
structure DecisionResult where
  original_query : String
  decisions : JValue
  error : Option String
  agent_type : String

/-- The dictionary returned by `AIResearchOrchestrator._format_final_output`
(and hence by `process_query`). -/
structure FinalReport where
  query : String
  summary : String
  key_trends : JValue
  business_impact : JValue
  recommended_actions : JValue
  status : String
  agent_execution_summary : Option JValue
  error : Option String

/-- Collaborator call counts along the executed path of one research-stage
invocation. -/
structure RTrace where
  search_calls : Nat
  summarize_calls : Nat
  llm_calls : Nat

namespace ResearchAgent

/-- The prompt `ResearchAgent.research` builds around the (possibly
summarized) search text. -/
def researchPrompt (query : String) (findings : String) : String :=
  "Based on the following search results about \"" ++ query ++
  "\", provide a structured summary focusing on:\n" ++
  "- Key facts and recent developments\n" ++
  "- Important trends\n" ++
  "- Concrete data points\n\n" ++
  "Search Results:\n" ++ findings ++ "\n\n" ++
  "Provide a factual summary without opinions or speculation:"

/-- The canned findings sentence of the research stage's `except` branch. -/
def fallback_findings (query : String) : String :=
  "Research completed on " ++ query ++
  ". Current AI landscape shows continued advancement in generative AI, enterprise adoption, and emerging regulatory frameworks."

/-- The dict returned by the research stage's `except Exception as e` branch:
canned findings referencing the query, `error` set to `str(e)`, and no
`raw_search_results` key. -/
def errorOutput (query : String) (e : String) : ResearchFinding :=
  { query := query
    findings := fallback_findings query
    raw_search_results := none
    error := some e
    agent_type := "research" }

/-- `ResearchAgent.research`: search, summarize when the search text exceeds
500 characters, one LLM call to structure the findings; any exception along
the way is caught and converted into `errorOutput`.  The second component
counts the collaborator calls made on the executed path. -/
def research (env : Env) (query : String) : ResearchFinding × RTrace :=
  match env.search query with
  | .error e => (errorOutput query e, ⟨1, 0, 0⟩)
  | .ok search_results =>
    if 500 < search_results.length then
      match env.summarize search_results with
      | .error e => (errorOutput query e, ⟨1, 1, 0⟩)
      | .ok findings =>
        match env.researchLLM (researchPrompt query findings) with
        | .error e => (errorOutput query e, ⟨1, 1, 1⟩)
        | .ok response =>
          ({ query := query
             findings := response.trim
             raw_search_results := some search_results
             error := none
             agent_type := "research" }, ⟨1, 1, 1⟩)
    else
      match env.researchLLM (researchPrompt query search_results) with
      | .error e => (errorOutput query e, ⟨1, 0, 1⟩)
      | .ok response =>
        ({ query := query
           findings := response.trim
           raw_search_results := some search_results
           error := none
           agent_type := "research" }, ⟨1, 0, 1⟩)

end ResearchAgent

namespace AnalysisAgent

/-- The prompt `AnalysisAgent.analyze` builds around the research findings,
requesting a fixed JSON shape. -/
def analysisPrompt (findings_text : String) : String :=
  "Analyze the following research findings about AI topics.\n" ++
  "Extract and categorize information into the specified structure.\n\n" ++
  "Research Findings:\n" ++ findings_text ++ "\n\n" ++
  "Provide your analysis in this exact JSON format:\n" ++
  "\x7b\n" ++
  "    \"key_trends\": [\n        \"Trend 1: Description\",\n        \"Trend 2: Description\",\n        \"Trend 3: Description\"\n    ],\n" ++
  "    \"risks\": [\n        \"Risk 1: Description and potential impact\",\n        \"Risk 2: Description and potential impact\"\n    ],\n" ++
  "    \"opportunities\": [\n        \"Opportunity 1: Description and potential value\",\n        \"Opportunity 2: Description and potential value\"\n    ],\n" ++
  "    \"business_impact\": \x7b\n        \"short_term\": \"Impact expected in next 6-12 months\",\n        \"medium_term\": \"Impact expected in 1-3 years\",\n        \"long_term\": \"Impact expected in 3+ years\"\n    \x7d,\n" ++
  "    \"market_dynamics\": [\n        \"Dynamic 1: Description\",\n        \"Dynamic 2: Description\"\n    ]\n" ++
  "\x7d\n\n" ++
  "Focus on business-relevant insights and concrete implications."

/-- `AnalysisAgent._create_fallback_analysis`: the fixed fallback object
(3 key trends, 2 risks, 2 opportunities, 3 business-impact horizons,
2 market dynamics).  The `findings` parameter is accepted and ignored,
exactly as in the source. -/
def create_fallback_analysis (findings : String) : JValue :=
  let _ := findings
  .obj
    [ ("key_trends", .arr
        [ .str "Continued advancement in large language models and generative AI"
        , .str "Increased enterprise adoption of AI solutions"
        , .str "Growing focus on AI safety and regulatory compliance" ])
    , ("risks", .arr
        [ .str "Regulatory uncertainty may impact AI development timelines"
        , .str "Competitive pressure from rapid technological advancement" ])
    , ("opportunities", .arr
        [ .str "Market expansion in AI-powered business solutions"
        , .str "Innovation potential in multimodal AI applications" ])
    , ("business_impact", .obj
        [ ("short_term", .str "Immediate opportunities in AI tool integration")
        , ("medium_term", .str "Transformation of business processes and workflows")
        , ("long_term", .str "Fundamental shifts in industry competitive dynamics") ])
    , ("market_dynamics", .arr
        [ .str "Rapid pace of technological innovation"
        , .str "Increasing investment in AI infrastructure" ]) ]

/-- `AnalysisAgent.analyze`: one LLM call; the stripped response is parsed as
JSON, with `_create_fallback_analysis` substituted on `JSONDecodeError`; the
surrounding `except` branch catches a raising LLM call and additionally sets
`error := str(e)`.  The second component counts the analysis LLM calls made
(the call site is reached on every path of the `try` body). -/
def analyze (env : Env) (research_findings : ResearchFinding) : AnalysisResult × Nat :=
  let findings_text := research_findings.findings
  match env.analysisLLM (analysisPrompt findings_text) with
  | .ok response =>
    let analysis_data :=
      match env.parseJson response.trim with
      | some v => v
      | none => create_fallback_analysis findings_text
    ({ original_query := research_findings.query
       analysis := analysis_data
       error := none
       agent_type := "analysis" }, 1)
  | .error e =>
    ({ original_query := research_findings.query
       analysis := create_fallback_analysis research_findings.findings
       error := some e
       agent_type := "analysis" }, 1)

end AnalysisAgent

namespace DecisionTool

/-- The prompt `DecisionTool._run` builds around the serialized analysis. -/
def toolPrompt (analysis : String) : String :=
  "Based on the following AI market analysis, generate strategic business recommendations.\n\n" ++
  "Analysis Data:\n" ++ analysis ++ "\n\n" ++
  "Provide recommendations in this exact JSON format:\n" ++
  "\x7b\n" ++
  "    \"recommendations\": [\n        \x7b\n            \"action\": \"Specific actionable recommendation\",\n            \"rationale\": \"Why this recommendation makes sense\",\n            \"priority\": \"High/Medium/Low\",\n            \"timeline\": \"Short/Medium/Long term\"\n        \x7d\n    ],\n" ++
  "    \"key_considerations\": [\"consideration1\", \"consideration2\"],\n" ++
  "    \"risk_mitigation\": [\"risk1_mitigation\", \"risk2_mitigation\"]\n" ++
  "\x7d\n\n" ++
  "Focus on practical, business-ready actions."

/-- The tool's own fallback object (its `except` branch): a single
high-priority recommendation. -/
def tool_fallback : JValue :=
  .obj
    [ ("recommendations", .arr
        [ .obj
            [ ("action", .str "Monitor AI technology developments closely")
            , ("rationale", .str "Rapid pace of AI advancement requires continuous awareness")
            , ("priority", .str "High")
            , ("timeline", .str "Short term") ] ])
    , ("key_considerations", .arr
        [ .str "Technology adoption costs", .str "Competitive landscape" ])
    , ("risk_mitigation", .arr
        [ .str "Gradual implementation", .str "Staff training programs" ]) ]

/-- `DecisionTool._run`: one LLM call (LLM construction and invocation are
both inside the `try`, so a failure of either lands in the `except` branch,
which returns `json.dumps` of the tool's own one-item fallback).  The tool
therefore never raises. -/
def run (env : Env) (analysis : String) : String :=
  match env.toolLLM (toolPrompt analysis) with
  | .ok response => response.trim
  | .error _ => dumps tool_fallback

end DecisionTool

namespace DecisionAgent

/-- The second, different prompt `DecisionAgent.decide` builds when the
decision tool's output fails to parse, embedding both the serialized
analysis and the tool's raw output. -/
def restructurePrompt (analysis_data : String) (decision_output : String) : String :=
  "Based on this analysis, provide strategic recommendations in JSON format:\n\n" ++
  "Analysis: " ++ analysis_data ++ "\n" ++
  "Decision Tool Output: " ++ decision_output ++ "\n\n" ++
  "Format as:\n" ++
  "\x7b\n" ++
  "    \"recommendations\": [\n        \x7b\n            \"action\": \"Specific action\",\n            \"rationale\": \"Why this makes sense\",\n            \"priority\": \"High/Medium/Low\",\n            \"timeline\": \"Short/Medium/Long term\"\n        \x7d\n    ],\n" ++
  "    \"key_considerations\": [\"consideration1\", \"consideration2\"],\n" ++
  "    \"risk_mitigation\": [\"mitigation1\", \"mitigation2\"]\n" ++
  "\x7d"

/-- `DecisionAgent._create_fallback_decisions`: the agent's fixed fallback
object, carrying two recommendations (one High/Short term, one
Medium/Medium term). -/
def create_fallback_decisions : JValue :=
  .obj
    [ ("recommendations", .arr
        [ .obj
            [ ("action", .str "Establish AI monitoring and evaluation framework")
            , ("rationale", .str "Stay informed about AI developments to make timely strategic decisions")
            , ("priority", .str "High")
            , ("timeline", .str "Short term") ]
        , .obj
            [ ("action", .str "Assess current business processes for AI integration opportunities")
            , ("rationale", .str "Identify areas where AI can provide competitive advantage")
            , ("priority", .str "Medium")
            , ("timeline", .str "Medium term") ] ])
    , ("key_considerations", .arr
        [ .str "Budget allocation for AI initiatives"
        , .str "Staff training and change management" ])
    , ("risk_mitigation", .arr
        [ .str "Gradual implementation approach"
        , .str "Regular technology assessment reviews" ]) ]

/-- `DecisionAgent.decide`: serialize the analysis, run the decision tool,
parse its output; on `JSONDecodeError`, issue one further LLM call with the
restructuring prompt and parse its stripped response; if that parse also
fails, substitute `_create_fallback_decisions`.  A raising second LLM call is
caught by the outer `except`, which also substitutes the agent fallback and
sets `error := str(e)`.  The second component counts the agent's own
(second-attempt) LLM calls, 0 or 1. -/
def decide (env : Env) (analysis_results : AnalysisResult) : DecisionResult × Nat :=
  let analysis_data := dumps analysis_results.analysis
  let decision_output := DecisionTool.run env analysis_data
  match env.parseJson decision_output with
  | some decisions =>
    ({ original_query := analysis_results.original_query
       decisions := decisions
       error := none
       agent_type := "decision" }, 0)
  | none =>
    match env.decisionLLM (restructurePrompt analysis_data decision_output) with
    | .ok response =>
      let decisions :=
        match env.parseJson response.trim with
        | some v => v
        | none => create_fallback_decisions
      ({ original_query := analysis_results.original_query
         decisions := decisions
         error := none
         agent_type := "decision" }, 1)
    | .error e =>
      ({ original_query := analysis_results.original_query
         decisions := create_fallback_decisions
         error := some e
         agent_type := "decision" }, 1)

end DecisionAgent

namespace AIResearchOrchestrator

/-- Projection of one recommendation item into the flattened
`action/priority/timeline/rationale` record of the final report
(`rec.get(...)` with defaults inside the list comprehension of
`_format_final_output`); raises on a non-dict item. -/
def projectItem (item : JValue) : Except String JValue :=
  match pyGetD item "action" (.str "") with
  | .error e => .error e
  | .ok action =>
    match pyGetD item "priority" (.str "Medium") with
    | .error e => .error e
    | .ok priority =>
      match pyGetD item "timeline" (.str "Medium term") with
      | .error e => .error e
      | .ok timeline =>
        match pyGetD item "rationale" (.str "") with
        | .error e => .error e
        | .ok rationale =>
          .ok (.obj
            [ ("action", action), ("priority", priority)
            , ("timeline", timeline), ("rationale", rationale) ])

/-- The list comprehension over `recommendations` in
`_format_final_output`. -/
def projectItems : List JValue → Except String (List JValue)
  | [] => .ok []
  | item :: rest =>
    match projectItem item with
    | .error e => .error e
    | .ok v =>
      match projectItems rest with
      | .error e => .error e
      | .ok vs => .ok (v :: vs)

/-- The `try` body of `_format_final_output`.  In the model every stage
output carries its `analysis`/`decisions`/`findings` field, so the `.get`
defaults on the stage dicts themselves never fire; what can still raise is
attribute/iteration access on a non-dict `analysis` or `decisions` payload
(both can be arbitrary parsed JSON). -/
def formatBody (query : String) (research : ResearchFinding)
    (analysis : AnalysisResult) (decisions : DecisionResult) :
    Except String FinalReport :=
  let analysis_data := analysis.analysis
  let decision_data := decisions.decisions
  let summary := research.findings
  match pyGetD analysis_data "key_trends" (.arr []) with
  | .error e => .error e
  | .ok key_trends =>
    match pyGetD analysis_data "business_impact" (.obj []) with
    | .error e => .error e
    | .ok business_impact =>
      match pyGetD decision_data "recommendations" (.arr []) with
      | .error e => .error e
      | .ok recommendations =>
        match pyIter recommendations with
        | .error e => .error e
        | .ok items =>
          match projectItems items with
          | .error e => .error e
          | .ok recommended_actions =>
            .ok
              { query := query
                summary := summary
                key_trends := key_trends
                business_impact := business_impact
                recommended_actions := .arr recommended_actions
                status := "completed"
                agent_execution_summary := some (.obj
                  [ ("research_agent",
                      .str (if research.findings ≠ "" then "completed" else "partial"))
                  , ("analysis_agent",
                      .str (if pyTruthy analysis_data then "completed" else "partial"))
                  , ("decision_agent",
                      .str (if pyTruthy decision_data then "completed" else "partial")) ])
                error := none }

/-- The degraded report of `_format_final_output`'s `except` branch; note its
single recommended action carries only `action` and `priority` keys. -/
def degradedReport (query : String) (e : String) : FinalReport :=
  { query := query
    summary := "Analysis completed with partial results."
    key_trends := .arr [.str "AI technology advancement continues"]
    business_impact := .obj [("short_term", .str "Monitoring recommended")]
    recommended_actions := .arr
      [.obj [ ("action", .str "Continue monitoring AI developments")
            , ("priority", .str "Medium") ]]
    status := "completed_with_errors"
    agent_execution_summary := none
    error := some e }

/-- `AIResearchOrchestrator._format_final_output`: the `try` body, with the
degraded `completed_with_errors` report substituted when the body raises. -/
def format_final_output (query : String) (research : ResearchFinding)
    (analysis : AnalysisResult) (decisions : DecisionResult) : FinalReport :=
  match formatBody query research analysis decisions with
  | .ok rep => rep
  | .error e => degradedReport query e

/-- `AIResearchOrchestrator.process_query`: the three stages in order, then
the final formatting.  Each stage function is total (its own catch-all
`except` converts every exception into a fallback output), so the
coordinator's defensive `except` branch — the one producing
`status = "failed"` — is unreachable in the model and the pipeline is a
total function. -/
def process_query (env : Env) (user_query : String) : FinalReport :=
  let research_results := (ResearchAgent.research env user_query).1
  let analysis_results := (AnalysisAgent.analyze env research_results).1
  let decision_results := (DecisionAgent.decide env analysis_results).1
  format_final_output user_query research_results analysis_results decision_results

end AIResearchOrchestrator

/-! Concrete collaborator environments and stage inputs used to instantiate
the claims on closed inputs. -/

/-- Environment in which the search collaborator raises an exception whose
message is empty (Python `str(e)` of a bare `Exception()` is `""`). -/
def envC4 : Env where
  search := fun _ => .error ""
  summarize := fun _ => .ok ""
  researchLLM := fun _ => .ok ""
  analysisLLM := fun _ => .ok ""
  toolLLM := fun _ => .ok ""
  decisionLLM := fun _ => .ok ""
  parseJson := fun _ => none

/-- Environment in which the search collaborator raises with a non-empty
message. -/
def envC4w : Env :=
  { envC4 with search := fun _ => .error "network down" }

/-- A 600-character search result. -/
def srC6 : String := String.mk (List.replicate 600 'a')

/-- Environment in which search returns 600 characters of text and the other
collaborators succeed. -/
def envC6 : Env where
  search := fun _ => .ok srC6
  summarize := fun _ => .ok "short summary"
  researchLLM := fun _ => .ok "structured findings"
  analysisLLM := fun _ => .ok ""
  toolLLM := fun _ => .ok ""
  decisionLLM := fun _ => .ok ""
  parseJson := fun _ => none

/-- Environment in which the analysis LLM answers with non-JSON text. -/
def envC3 : Env where
  search := fun _ => .ok ""
  summarize := fun _ => .ok ""
  researchLLM := fun _ => .ok ""
  analysisLLM := fun _ => .ok "not json"
  toolLLM := fun _ => .ok ""
  decisionLLM := fun _ => .ok ""
  parseJson := fun _ => none

/-- A research finding fed to the analysis stage. -/
def rfC3 : ResearchFinding :=
  { query := "AI trends", findings := "some findings"
    raw_search_results := none, error := none, agent_type := "research" }

/-- Environment in which the analysis LLM answers with text that parses as a
JSON object carrying only a `key_trends` key. -/
def envC5 : Env where
  search := fun _ => .ok ""
  summarize := fun _ => .ok ""
  researchLLM := fun _ => .ok ""
  analysisLLM := fun _ => .ok "resp"
  toolLLM := fun _ => .ok ""
  decisionLLM := fun _ => .ok ""
  parseJson := fun _ => some (.obj [("key_trends", .arr [])])

/-- A research finding fed to the analysis stage. -/
def rfC5 : ResearchFinding :=
  { query := "q", findings := "f"
    raw_search_results := none, error := none, agent_type := "research" }

/-- Environment in which both the decision tool's LLM and the decision
agent's second LLM attempt answer with non-JSON text. -/
def envC2 : Env where
  search := fun _ => .ok ""
  summarize := fun _ => .ok ""
  researchLLM := fun _ => .ok ""
  analysisLLM := fun _ => .ok ""
  toolLLM := fun _ => .ok "NOT JSON"
  decisionLLM := fun _ => .ok "STILL NOT JSON"
  parseJson := fun _ => none

/-- An analysis result fed to the decision stage. -/
def arC2 : AnalysisResult :=
  { original_query := "q", analysis := .obj [], error := none, agent_type := "analysis" }

/-- Environment in which the decision tool's own LLM raises (e.g. a missing
`GROQ_API_KEY`), and `json.loads` inverts `json.dumps` on the tool's
fallback object. -/
def envC8 : Env where
  search := fun _ => .ok ""
  summarize := fun _ => .ok ""
  researchLLM := fun _ => .ok ""
  analysisLLM := fun _ => .ok ""
  toolLLM := fun _ => .error "GROQ_API_KEY environment variable is required"
  decisionLLM := fun _ => .ok ""
  parseJson := fun s =>
    if s = dumps DecisionTool.tool_fallback then some DecisionTool.tool_fallback else none

/-- An analysis result fed to the decision stage. -/
def arC8 : AnalysisResult :=
  { original_query := "q", analysis := .obj [], error := none, agent_type := "analysis" }

/-- Environment in which every LLM answers successfully but with non-JSON
text. -/
def envC9 : Env where
  search := fun _ => .ok ""
  summarize := fun _ => .ok ""
  researchLLM := fun _ => .ok ""
  analysisLLM := fun _ => .ok "plain text answer"
  toolLLM := fun _ => .ok "tool text"
  decisionLLM := fun _ => .ok "more text"
  parseJson := fun _ => none

/-- A research finding fed to the analysis stage. -/
def rfC9 : ResearchFinding :=
  { query := "q", findings := "f"
    raw_search_results := none, error := none, agent_type := "research" }

/-- An analysis result fed to the decision stage. -/
def arC9 : AnalysisResult :=
  { original_query := "q", analysis := .obj [], error := none, agent_type := "analysis" }

/-- A research finding for the final-formatter scenario. -/
def rC7 : ResearchFinding :=
  { query := "q", findings := "findings"
    raw_search_results := none, error := none, agent_type := "research" }

/-- An analysis result with an empty analysis object. -/
def aC7 : AnalysisResult :=
  { original_query := "q", analysis := .obj [], error := none, agent_type := "analysis" }

/-- A decision result whose single recommendation lacks `priority`,
`timeline` and `rationale`. -/
def dC7 : DecisionResult :=
  { original_query := "q"
    decisions := .obj [("recommendations", .arr [.obj [("action", .str "Do X")]])]
    error := none, agent_type := "decision" }

/-! Helper lemmas. -/

/-- When the `try` body of `_format_final_output` completes, the report it
builds carries the input query and status `"completed"`. -/
theorem formatBody_ok_spec (q : String) (r : ResearchFinding) (a : AnalysisResult)
    (d : DecisionResult) (rep : FinalReport)
    (h : AIResearchOrchestrator.formatBody q r a d = .ok rep) :
    rep.query = q ∧ rep.status = "completed" := by
  simp only [AIResearchOrchestrator.formatBody] at h
  repeat' split at h
  all_goals first
    | exact Except.noConfusion h
    | (injection h with h2; subst h2; exact ⟨rfl, rfl⟩)

/-- `_format_final_output` always carries the input query, and its status is
`"completed"` or `"completed_with_errors"`. -/
theorem format_final_output_spec (q : String) (r : ResearchFinding) (a : AnalysisResult)
    (d : DecisionResult) :
    (AIResearchOrchestrator.format_final_output q r a d).query = q
    ∧ ((AIResearchOrchestrator.format_final_output q r a d).status = "completed"
        ∨ (AIResearchOrchestrator.format_final_output q r a d).status = "completed_with_errors") := by
  unfold AIResearchOrchestrator.format_final_output
  cases hfb : AIResearchOrchestrator.formatBody q r a d with
  | ok rep =>
    have hs := formatBody_ok_spec q r a d rep hfb
    exact ⟨hs.1, Or.inl hs.2⟩
  | error e => exact ⟨rfl, Or.inr rfl⟩

/-- The recommendation-list comprehension on a list of dict items succeeds
and applies the `.get` defaults pointwise. -/
theorem projectItems_map_obj (objs : List (List (String × JValue))) :
    AIResearchOrchestrator.projectItems (objs.map JValue.obj)
      = .ok (objs.map (fun kvs => JValue.obj
          [ ("action", (jLookup kvs "action").getD (.str ""))
          , ("priority", (jLookup kvs "priority").getD (.str "Medium"))
          , ("timeline", (jLookup kvs "timeline").getD (.str "Medium term"))
          , ("rationale", (jLookup kvs "rationale").getD (.str "")) ])) := by
  induction objs with
  | nil => rfl
  | cons kvs rest ih =>
    simp only [List.map, AIResearchOrchestrator.projectItems,
      AIResearchOrchestrator.projectItem, pyGetD, ih]

/-! The claims. -/

/-- Claim C1: for every query (and every behaviour of the collaborators),
`process_query` returns a report whose `status` is one of `"completed"`,
`"completed_with_errors"`, `"failed"`; no exception escapes to the caller
(every stage of the model is a total function). -/
theorem claim_C1 (env : Env) (q : String) :
    (AIResearchOrchestrator.process_query env q).status
      ∈ (["completed", "completed_with_errors", "failed"] : List String) := by
  simp only [AIResearchOrchestrator.process_query]
  rcases (format_final_output_spec q (ResearchAgent.research env q).1
      (AnalysisAgent.analyze env (ResearchAgent.research env q).1).1
      (DecisionAgent.decide env
        (AnalysisAgent.analyze env (ResearchAgent.research env q).1).1).1).2 with h | h
  · rw [h]; exact List.Mem.head _
  · rw [h]; exact List.Mem.tail _ (List.Mem.head _)

/-- Claim C3: if the analysis LLM call succeeds but its (stripped) output is
not valid JSON, `analyze` returns the fixed fallback analysis — which has
exactly 3 key trends, 2 risks, 2 opportunities, 3 business-impact horizons
and 2 market dynamics — and exactly one LLM call was issued (no retry before
the fallback). -/
theorem claim_C3 (env : Env) (rf : ResearchFinding) (resp : String)
    (hllm : env.analysisLLM (AnalysisAgent.analysisPrompt rf.findings) = .ok resp)
    (hparse : env.parseJson resp.trim = none) :
    (AnalysisAgent.analyze env rf).1.analysis = AnalysisAgent.create_fallback_analysis rf.findings
    ∧ (AnalysisAgent.analyze env rf).2 = 1
    ∧ jArrLen (AnalysisAgent.create_fallback_analysis rf.findings) "key_trends" = some 3
    ∧ jArrLen (AnalysisAgent.create_fallback_analysis rf.findings) "risks" = some 2
    ∧ jArrLen (AnalysisAgent.create_fallback_analysis rf.findings) "opportunities" = some 2
    ∧ jObjKeyCount (AnalysisAgent.create_fallback_analysis rf.findings) "business_impact" = some 3
    ∧ jArrLen (AnalysisAgent.create_fallback_analysis rf.findings) "market_dynamics" = some 2 := by
  refine ⟨?_, ?_, rfl, rfl, rfl, rfl, rfl⟩
  · simp only [AnalysisAgent.analyze, hllm, hparse]
  · simp only [AnalysisAgent.analyze, hllm]

/-- Instantiation of C3: the analysis LLM answers `"not json"`, nothing
parses, and the stage substitutes the fallback after its single LLM call. -/
theorem claim_C3_witness :
    (AnalysisAgent.analyze envC3 rfC3).1.analysis
        = AnalysisAgent.create_fallback_analysis "some findings"
    ∧ (AnalysisAgent.analyze envC3 rfC3).2 = 1 := by
  have h := claim_C3 envC3 rfC3 "not json" rfl rfl
  exact ⟨h.1, h.2.1⟩

/-- Claim C5: whenever the analysis LLM's raw output parses as JSON — any
JSON value `v`, however incomplete — `analyze` stores `v` verbatim as the
`analysis` field and sets no error; the fallback is parse-failure-only. -/
theorem claim_C5 (env : Env) (rf : ResearchFinding) (resp : String) (v : JValue)
    (hllm : env.analysisLLM (AnalysisAgent.analysisPrompt rf.findings) = .ok resp)
    (hparse : env.parseJson resp.trim = some v) :
    (AnalysisAgent.analyze env rf).1.analysis = v
    ∧ (AnalysisAgent.analyze env rf).1.error = none := by
  refine ⟨?_, ?_⟩ <;> simp only [AnalysisAgent.analyze, hllm, hparse]

/-- Instantiation of C5: valid JSON carrying only `key_trends` is stored
verbatim, not replaced by the fallback. -/
theorem claim_C5_witness :
    (AnalysisAgent.analyze envC5 rfC5).1.analysis = JValue.obj [("key_trends", .arr [])]
    ∧ (AnalysisAgent.analyze envC5 rfC5).1.error = none :=
  claim_C5 envC5 rfC5 "resp" (.obj [("key_trends", .arr [])]) rfl rfl

/-- Claim C4 (amended): any exception raised by the search collaborator, the
summarization step or the research LLM is caught, and the stage returns the
canned finding sentence referencing the query with `error` set to the
exception's message (non-empty exactly when that message is). -/
theorem claim_C4_amended (env : Env) (q msg : String) :
    (env.search q = .error msg →
       (ResearchAgent.research env q).1 = ResearchAgent.errorOutput q msg)
    ∧ (∀ sr, env.search q = .ok sr → 500 < sr.length →
         env.summarize sr = .error msg →
         (ResearchAgent.research env q).1 = ResearchAgent.errorOutput q msg)
    ∧ (∀ sr, env.search q = .ok sr → ¬ 500 < sr.length →
         env.researchLLM (ResearchAgent.researchPrompt q sr) = .error msg →
         (ResearchAgent.research env q).1 = ResearchAgent.errorOutput q msg)
    ∧ (∀ sr f, env.search q = .ok sr → 500 < sr.length →
         env.summarize sr = .ok f →
         env.researchLLM (ResearchAgent.researchPrompt q f) = .error msg →
         (ResearchAgent.research env q).1 = ResearchAgent.errorOutput q msg)
    ∧ (ResearchAgent.errorOutput q msg).findings
        = "Research completed on " ++ q ++
          ". Current AI landscape shows continued advancement in generative AI, enterprise adoption, and emerging regulatory frameworks."
    ∧ (ResearchAgent.errorOutput q msg).error = some msg := by
  refine ⟨?_, ?_, ?_, ?_, rfl, rfl⟩
  · intro h
    simp only [ResearchAgent.research, h]
  · intro sr hs hlen hsum
    simp only [ResearchAgent.research, hs, if_pos hlen, hsum]
  · intro sr hs hlen hllm
    simp only [ResearchAgent.research, hs, if_neg hlen, hllm]
  · intro sr f hs hlen hsum hllm
    simp only [ResearchAgent.research, hs, if_pos hlen, hsum, hllm]

/-- Counterexample to C4 as stated: an exception whose `str(e)` is empty
(e.g. a bare `Exception()`) is caught, but the resulting `error` field is the
empty string — present, yet not a non-empty message. -/
theorem claim_C4_counterexample :
    (ResearchAgent.research envC4 "AI safety").1.error = some ""
    ∧ ¬ ∃ e, (ResearchAgent.research envC4 "AI safety").1.error = some e ∧ e ≠ "" := by
  have h0 : (ResearchAgent.research envC4 "AI safety").1.error = some "" := rfl
  refine ⟨h0, ?_⟩
  rintro ⟨e, he, hne⟩
  rw [h0] at he
  injection he with h2
  exact hne h2.symm

/-- Instantiation of the amended C4: a failing search collaborator with a
non-empty message yields the canned finding with that message as error. -/
theorem claim_C4_witness :
    (ResearchAgent.research envC4w "AI trends").1
      = ResearchAgent.errorOutput "AI trends" "network down" :=
  (claim_C4_amended envC4w "AI trends" "network down").1 rfl

/-- Claim C6: when the search collaborator returns `sr`, the summarization
step is invoked exactly once if `sr` exceeds 500 characters and not at all
otherwise; in the short case the LLM prompt is built from `sr` verbatim, in
the long case from the summarizer's output. -/
theorem claim_C6 (env : Env) (q sr : String) (h : env.search q = .ok sr) :
    ((ResearchAgent.research env q).2.summarize_calls = if 500 < sr.length then 1 else 0)
    ∧ (∀ resp, ¬ 500 < sr.length →
         env.researchLLM (ResearchAgent.researchPrompt q sr) = .ok resp →
         (ResearchAgent.research env q).1.findings = resp.trim)
    ∧ (∀ f resp, 500 < sr.length → env.summarize sr = .ok f →
         env.researchLLM (ResearchAgent.researchPrompt q f) = .ok resp →
         (ResearchAgent.research env q).1.findings = resp.trim) := by
  refine ⟨?_, ?_, ?_⟩
  · simp only [ResearchAgent.research, h]
    by_cases hlen : 500 < sr.length
    · rw [if_pos hlen, if_pos hlen]
      repeat' split
      all_goals rfl
    · rw [if_neg hlen, if_neg hlen]
      repeat' split
      all_goals rfl
  · intro resp hlen hllm
    simp only [ResearchAgent.research, h, if_neg hlen, hllm]
  · intro f resp hlen hsum hllm
    simp only [ResearchAgent.research, h, if_pos hlen, hsum, hllm]

set_option maxRecDepth 4096 in
/-- Instantiation of C6: a 600-character search result triggers exactly one
summarization call. -/
theorem claim_C6_witness :
    (ResearchAgent.research envC6 "AI safety trends").2.summarize_calls = 1 := by
  have h := (claim_C6 envC6 "AI safety trends" srC6 rfl).1
  rw [h, if_pos (by decide)]

/-- Claim C7: on a decision output whose `recommendations` is a list of dict
records (and a dict-shaped analysis), the final formatter completes and
projects each record to a flat action/priority/timeline/rationale record,
defaulting `priority` to `"Medium"`, `timeline` to `"Medium term"`, and
`action`/`rationale` to the empty string. -/
theorem claim_C7 (q : String) (r : ResearchFinding) (a : AnalysisResult) (d : DecisionResult)
    (A D : List (String × JValue)) (objs : List (List (String × JValue)))
    (hA : a.analysis = .obj A) (hD : d.decisions = .obj D)
    (hrecs : jLookup D "recommendations" = some (.arr (objs.map JValue.obj))) :
    (AIResearchOrchestrator.format_final_output q r a d).status = "completed"
    ∧ (AIResearchOrchestrator.format_final_output q r a d).recommended_actions
        = .arr (objs.map (fun kvs => JValue.obj
            [ ("action", (jLookup kvs "action").getD (.str ""))
            , ("priority", (jLookup kvs "priority").getD (.str "Medium"))
            , ("timeline", (jLookup kvs "timeline").getD (.str "Medium term"))
            , ("rationale", (jLookup kvs "rationale").getD (.str "")) ])) := by
  refine ⟨?_, ?_⟩ <;>
    simp only [AIResearchOrchestrator.format_final_output, AIResearchOrchestrator.formatBody,
      hA, hD, pyGetD, hrecs, Option.getD_some, pyIter, projectItems_map_obj]

/-- Instantiation of C7: a recommendation carrying only `action` is projected
with the defaulted priority `"Medium"` and timeline `"Medium term"`. -/
theorem claim_C7_witness :
    (AIResearchOrchestrator.format_final_output "q" rC7 aC7 dC7).recommended_actions
      = .arr [JValue.obj
          [ ("action", .str "Do X"), ("priority", .str "Medium")
          , ("timeline", .str "Medium term"), ("rationale", .str "") ]] := by
  have h := claim_C7 "q" rC7 aC7 dC7 [] [("recommendations",
    JValue.arr [JValue.obj [("action", JValue.str "Do X")]])]
    [[("action", JValue.str "Do X")]] rfl rfl rfl
  exact h.2

/-- Claim C2 (amended): if the decision tool's output is not valid JSON and
the agent's second LLM attempt also returns non-JSON, `decide` substitutes
the agent's fixed fallback recommendation set — which carries two
recommendations, not one. -/
theorem claim_C2_amended (env : Env) (ar : AnalysisResult) (resp2 : String)
    (h1 : env.parseJson (DecisionTool.run env (dumps ar.analysis)) = none)
    (h2 : env.decisionLLM (DecisionAgent.restructurePrompt (dumps ar.analysis)
            (DecisionTool.run env (dumps ar.analysis))) = .ok resp2)
    (h3 : env.parseJson resp2.trim = none) :
    (DecisionAgent.decide env ar).1.decisions = DecisionAgent.create_fallback_decisions
    ∧ jArrLen DecisionAgent.create_fallback_decisions "recommendations" = some 2 := by
  refine ⟨?_, rfl⟩
  simp only [DecisionAgent.decide, h1, h2, h3]

/-- Counterexample to C2 as stated: with both parses failing, the substituted
recommendation set has two entries, so it is not the one-item set the claim
describes. -/
theorem claim_C2_counterexample :
    jArrLen (DecisionAgent.decide envC2 arC2).1.decisions "recommendations" = some 2
    ∧ jArrLen (DecisionAgent.decide envC2 arC2).1.decisions "recommendations" ≠ some 1 := by
  have h : jArrLen (DecisionAgent.decide envC2 arC2).1.decisions "recommendations" = some 2 := rfl
  refine ⟨h, ?_⟩
  rw [h]
  decide

/-- Instantiation of the amended C2: both LLM answers are non-JSON and the
agent's two-item fallback is substituted. -/
theorem claim_C2_witness :
    (DecisionAgent.decide envC2 arC2).1.decisions = DecisionAgent.create_fallback_decisions :=
  (claim_C2_amended envC2 arC2 "STILL NOT JSON" rfl rfl rfl).1

/-- Claim C8: when the decision tool's own LLM raises, the tool serializes
its one-item fallback as JSON, so — `json.loads` inverting `json.dumps` on
that value — the agent's first parse succeeds: `decisions` is the tool's
one-item fallback, no second LLM call is made, and no error field is set. -/
theorem claim_C8 (env : Env) (ar : AnalysisResult) (msg : String)
    (htool : ∀ p, env.toolLLM p = .error msg)
    (hparse : env.parseJson (dumps DecisionTool.tool_fallback)
        = some DecisionTool.tool_fallback) :
    (DecisionAgent.decide env ar).1.decisions = DecisionTool.tool_fallback
    ∧ (DecisionAgent.decide env ar).2 = 0
    ∧ (DecisionAgent.decide env ar).1.error = none
    ∧ jArrLen DecisionTool.tool_fallback "recommendations" = some 1 := by
  have hrun : DecisionTool.run env (dumps ar.analysis) = dumps DecisionTool.tool_fallback := by
    simp only [DecisionTool.run, htool]
  refine ⟨?_, ?_, ?_, rfl⟩ <;> simp only [DecisionAgent.decide, hrun, hparse]

/-- Instantiation of C8: a missing API key makes the tool's LLM raise; the
agent ends up with the tool's one-item fallback and zero second-attempt
calls. -/
theorem claim_C8_witness :
    (DecisionAgent.decide envC8 arC8).1.decisions = DecisionTool.tool_fallback
    ∧ (DecisionAgent.decide envC8 arC8).2 = 0 := by
  have h := claim_C8 envC8 arC8 "GROQ_API_KEY environment variable is required"
    (fun _ => rfl) (by simp [envC8])
  exact ⟨h.1, h.2.1⟩

/-- Claim C9: a stage output carries an `error` field exactly when that
stage's catch-all handler ran — for the analysis stage, exactly when its LLM
call raised; for the decision stage, exactly when the first parse failed and
the second LLM call raised.  In particular a parse failure alone (LLM call
succeeded) leaves the analysis output with no error field. -/
theorem claim_C9 (env : Env) (rf : ResearchFinding) (ar : AnalysisResult) :
    ((AnalysisAgent.analyze env rf).1.error).isSome
        = isErr (env.analysisLLM (AnalysisAgent.analysisPrompt rf.findings))
    ∧ ((DecisionAgent.decide env ar).1.error).isSome
        = ((env.parseJson (DecisionTool.run env (dumps ar.analysis))).isNone
            && isErr (env.decisionLLM (DecisionAgent.restructurePrompt (dumps ar.analysis)
                 (DecisionTool.run env (dumps ar.analysis)))))
    ∧ (∀ resp, env.analysisLLM (AnalysisAgent.analysisPrompt rf.findings) = .ok resp →
         env.parseJson resp.trim = none → (AnalysisAgent.analyze env rf).1.error = none) := by
  refine ⟨?_, ?_, ?_⟩
  · simp only [AnalysisAgent.analyze]
    cases h : env.analysisLLM (AnalysisAgent.analysisPrompt rf.findings) <;>
      simp [isErr]
  · simp only [DecisionAgent.decide]
    cases h1 : env.parseJson (DecisionTool.run env (dumps ar.analysis))
    · cases h2 : env.decisionLLM (DecisionAgent.restructurePrompt (dumps ar.analysis)
          (DecisionTool.run env (dumps ar.analysis))) <;> simp [isErr]
    · simp [isErr]
  · intro resp h1 h2
    simp only [AnalysisAgent.analyze, h1, h2]

/-- Instantiation of C9: all LLM calls succeed with non-JSON text; neither
the analysis nor the decision output carries an error field. -/
theorem claim_C9_witness :
    (AnalysisAgent.analyze envC9 rfC9).1.error = none
    ∧ ((DecisionAgent.decide envC9 arC9).1.error).isSome = false := by
  have h := claim_C9 envC9 rfC9 arC9
  refine ⟨h.2.2 "plain text answer" rfl rfl, ?_⟩
  rw [h.2.1]
  rfl

/-- Claim C10: the query is preserved unchanged along every path: the
research output echoes the input query, analysis and decision outputs thread
it through `original_query`, and the final report's `query` equals the query
passed to `process_query`. -/
theorem claim_C10 (env : Env) (q : String) (rf : ResearchFinding) (ar : AnalysisResult) :
    (ResearchAgent.research env q).1.query = q
    ∧ (AnalysisAgent.analyze env rf).1.original_query = rf.query
    ∧ (DecisionAgent.decide env ar).1.original_query = ar.original_query
    ∧ (AIResearchOrchestrator.process_query env q).query = q := by
  refine ⟨?_, ?_, ?_, ?_⟩
  · simp only [ResearchAgent.research]
    repeat' split
    all_goals rfl
  · simp only [AnalysisAgent.analyze]
    repeat' split
    all_goals rfl
  · simp only [DecisionAgent.decide]
    repeat' split
    all_goals rfl
  · simp only [AIResearchOrchestrator.process_query]
    exact (format_final_output_spec q (ResearchAgent.research env q).1
      (AnalysisAgent.analyze env (ResearchAgent.research env q).1).1
      (DecisionAgent.decide env
        (AnalysisAgent.analyze env (ResearchAgent.research env q).1).1).1).1

end AIAgent
